import Mathlib

/-!
Verification development for the ChatMe backend (Rust, Tauri).

The Rust sources under src/src-tauri/src are shallowly embedded below:
pure functions become Lean functions, the filesystem / process effects of
the agent runtime become explicit state passing over a `World` record, and
fallible Rust code (anyhow Result) becomes `Except String`.

Modelling conventions, stated once:
- machine strings are Lean `String`; Rust byte-level operations
  (str contains, starts_with, split) are modelled on the character list,
  which coincides with Rust semantics on valid UTF-8 input; ASCII case
  folding stands in for Unicode to_lowercase (every string the policy
  compares against is ASCII);
- OS collaborators that only produce data (process listings, installed
  applications, regex search hits, shell stdout) are abstracted: the
  dispatcher-level logic around them is translated exactly, and the
  produced payloads are either oracle parameters or fixed placeholders,
  because no verified claim inspects those payloads;
- locks always succeed (sequential semantics): the Rust code silently
  drops an audit append only when a Mutex is poisoned by a panic, which
  has no counterpart in this sequential model.
-/

namespace ChatMe

/-! ## Character-list string primitives (kernel-reduction friendly) -/

/-- Boolean list-prefix test on characters, used to model Rust
str::starts_with in a way the kernel evaluates. -/
def listPre : List Char → List Char → Bool
  | [], _ => true
  | _ :: _, [] => false
  | a :: as, b :: bs => a == b && listPre as bs

/-- Boolean substring test on character lists, used to model Rust
str::contains. -/
def subOf (pat : List Char) : List Char → Bool
  | [] => pat.isEmpty
  | x :: xs => listPre pat (x :: xs) || subOf pat xs

/-- String contains, modelling Rust str::contains for UTF-8 text. -/
def strContains (s pat : String) : Bool := subOf pat.data s.data

/-- String starts-with, modelling Rust str::starts_with. -/
def strStartsWith (s pre : String) : Bool := listPre pre.data s.data

/-- ASCII lower-casing, modelling Rust to_lowercase on ASCII input. -/
def strToLower (s : String) : String := ⟨s.data.map Char.toLower⟩

/-- Drop the first n characters, modelling a byte slice on ASCII input. -/
def strDrop (s : String) (n : Nat) : String := ⟨s.data.drop n⟩

def splitOnCharAux (c : Char) : List Char → List Char → List String
  | [], cur => [⟨cur.reverse⟩]
  | x :: xs, cur =>
    if x == c then ⟨cur.reverse⟩ :: splitOnCharAux c xs []
    else splitOnCharAux c xs (x :: cur)

/-- Split on a separator character, modelling Rust str::split. -/
def splitOnChar (c : Char) (s : String) : List String :=
  splitOnCharAux c s.data []

def splitWsAux : List Char → List Char → List String
  | [], cur => if cur.isEmpty then [] else [⟨cur.reverse⟩]
  | x :: xs, cur =>
    if x.isWhitespace then
      if cur.isEmpty then splitWsAux xs [] else ⟨cur.reverse⟩ :: splitWsAux xs []
    else splitWsAux xs (x :: cur)

/-- Whitespace splitting without empty items, modelling Rust
str::split_whitespace. -/
def splitWs (s : String) : List String := splitWsAux s.data []

/-- Concatenation of a list of strings in order. -/
def concatAll : List String → String
  | [] => ""
  | s :: rest => s ++ concatAll rest

/-- Words joined by single spaces, with no trailing space. -/
def spaceJoin : List String → String
  | [] => ""
  | [w] => w
  | w :: rest => w ++ " " ++ spaceJoin rest

/-! ## JSON values (serde_json::Value) -/

/-- Shallow model of serde_json::Value; numbers are abstracted to
integers, which covers every numeric parameter the program reads
(pids, counts). -/
inductive Json where
  | null
  | bool (b : Bool)
  | num (n : Int)
  | str (s : String)
  | arr (xs : List Json)
  | obj (fields : List (String × Json))

/-- Parameter bag of an action: the ordered map of serde_json values. -/
abbrev Params := List (String × Json)

/-- Map lookup, modelling HashMap::get. -/
def getParam (ps : Params) (k : String) : Option Json :=
  (ps.find? (fun e => e.1 == k)).map (·.2)

/-- Value::as_str. -/
def Json.asStr? : Json → Option String
  | .str s => some s
  | _ => none

/-- Value::as_bool. -/
def Json.asBool? : Json → Option Bool
  | .bool b => some b
  | _ => none

/-- Value::as_u64: defined for non-negative integers. -/
def Json.asU64? : Json → Option Nat
  | .num n => if n < 0 then none else some n.toNat
  | _ => none

/-- Value::as_array. -/
def Json.asArr? : Json → Option (List Json)
  | .arr xs => some xs
  | _ => none

/-- Value::as_object. -/
def Json.asObj? : Json → Option (List (String × Json))
  | .obj fs => some fs
  | _ => none

/-- Indexing a Value by key: null for non-objects and absent keys,
as serde_json indexing behaves. -/
def Json.getKey (j : Json) (k : String) : Json :=
  match j with
  | .obj fs =>
    match (fs.find? (fun e => e.1 == k)).map (·.2) with
    | some v => v
    | none => .null
  | _ => .null

/-- Indexing a Value by array position: null when out of range or not
an array. -/
def Json.getIdx (j : Json) (i : Nat) : Json :=
  match j with
  | .arr xs =>
    match xs.get? i with
    | some v => v
    | none => .null
  | _ => .null

/-- Display of a Value, used only to fill permission detail maps; the
rendering of composite values is coarse because no claim reads it. -/
def Json.render : Json → String
  | .null => "null"
  | .bool b => if b then "true" else "false"
  | .num n => toString n
  | .str s => "\"" ++ s ++ "\""
  | .arr _ => "[..]"
  | .obj _ => "\x7b..\x7d"

/-- Convenience: read a string parameter, as params.get(k).and_then(as_str). -/
def getStr (ps : Params) (k : String) : Option String :=
  (getParam ps k).bind Json.asStr?

/-- Convenience: read a bool parameter. -/
def getBool (ps : Params) (k : String) : Option Bool :=
  (getParam ps k).bind Json.asBool?

/-- Convenience: read a u64 parameter. -/
def getU64 (ps : Params) (k : String) : Option Nat :=
  (getParam ps k).bind Json.asU64?

/-! ## PermissionPolicy (system_operations.rs, check_permission_level) -/

/-- Risk tiers of system_operations.rs. -/
inductive PermissionLevel where
  | Safe
  | Moderate
  | Dangerous
deriving DecidableEq

/-- OperationPermission record of system_operations.rs. -/
structure OperationPermission where
  operation : String
  description : String
  level : PermissionLevel
  details : List (String × String)

/-- Denylist of destructive substrings for shell commands
(system_operations.rs lines 417 to 420). -/
def dangerousPatterns : List String :=
  ["rm -rf", "del /f", "format", "fdisk", "dd if=",
   "sudo", "admin", "registry", "regedit"]

/-- System directory roots guarded for deletion
(system_operations.rs lines 469 to 472). -/
def systemDirs : List String :=
  ["C:\\Windows", "C:\\Program Files", "/usr", "/bin", "/etc",
   "/System", "/Library", "/Applications"]

/-- check_permission_level of system_operations.rs lines 408 to 523,
translated clause by clause. -/
def check_permission_level (operation : String) (params : Params) :
    OperationPermission :=
  if operation == "execute_command" then
    match getStr params "command" with
    | some cmd =>
      let isDangerous :=
        dangerousPatterns.any (fun pat => strContains (strToLower cmd) pat)
      { operation := "Execute Terminal Command"
        description := "Execute command: " ++ cmd
        level := if isDangerous then .Dangerous else .Moderate
        details := [("command", cmd)] }
    | none =>
      { operation := "Execute Terminal Command"
        description := "Execute unknown command"
        level := .Dangerous
        details := [] }
  else if operation == "launch_app" then
    match getStr params "path" with
    | some path =>
      { operation := "Launch Application"
        description := "Launch application: " ++ path
        level := .Moderate
        details := [("application", path)] }
    | none =>
      { operation := "Launch Application"
        description := "Launch unknown application"
        level := .Moderate
        details := [] }
  else if operation == "delete_file" || operation == "delete_directory" then
    match getStr params "path" with
    | some path =>
      let isSystem := systemDirs.any (fun d => strStartsWith path d)
      { operation := "Delete File/Directory"
        description := "Delete: " ++ path
        level := if isSystem then .Dangerous else .Moderate
        details := [("path", path)] }
    | none =>
      { operation := "Delete File/Directory"
        description := "Delete unknown path"
        level := .Dangerous
        details := [] }
  else if operation == "kill_process" then
    match getParam params "pid" with
    | some pid =>
      { operation := "Kill Process"
        description := "Terminate process with PID: " ++ pid.render
        level := .Dangerous
        details := [("pid", pid.render)] }
    | none =>
      { operation := "Kill Process"
        description := "Terminate unknown process"
        level := .Dangerous
        details := [] }
  else
    { operation := operation
      description := "Unknown operation"
      level := .Safe
      details := [] }

/-! ## Filesystem and OS world model -/

/-- A filesystem entry: a text file with its contents, or a directory. -/
inductive FsEntry where
  | file (content : String)
  | dir

/-- Association list from absolute path strings to entries, modelling the
filesystem state the Rust collaborators act on. -/
abbrev FsMap := List (String × FsEntry)

/-- Lookup of a path, modelling Path::exists / metadata queries. -/
def lookupFs (fs : FsMap) (p : String) : Option FsEntry :=
  (fs.find? (fun e => e.1 == p)).map (·.2)

/-- Path is an existing regular file. -/
def isFile (fs : FsMap) (p : String) : Bool :=
  match lookupFs fs p with
  | some (.file _) => true
  | _ => false

/-- Path is an existing directory. -/
def isDir (fs : FsMap) (p : String) : Bool :=
  match lookupFs fs p with
  | some .dir => true
  | _ => false

/-- Remove a binding. -/
def removeKey (fs : FsMap) (p : String) : FsMap :=
  fs.filter (fun e => !(e.1 == p))

/-- Insert or overwrite a binding. -/
def fsSet (fs : FsMap) (p : String) (e : FsEntry) : FsMap :=
  (p, e) :: removeKey fs p

/-- Paths strictly inside a directory (any depth). -/
def underDir (d p : String) : Bool := strStartsWith p (d ++ "/")

/-- Remove a path together with everything under it, modelling
remove_dir_all / the subtree effect of rename on directories. -/
def removeSubtree (fs : FsMap) (p : String) : FsMap :=
  fs.filter (fun e => !(e.1 == p) && !(underDir p e.1))

/-- Whether a directory has entries strictly inside it. -/
def hasChildren (fs : FsMap) (p : String) : Bool :=
  fs.any (fun e => underDir p e.1)

/-- Components of a slash-separated path. -/
def pathComps (p : String) : List String := splitOnChar '/' p

/-- Join components with a separator. -/
def joinSep (sep : String) : List String → String
  | [] => ""
  | [w] => w
  | w :: rest => w ++ sep ++ joinSep sep rest

/-- Proper ancestor directories of a path (the chain create_dir_all
would create for its parent), with empty components filtered out. -/
def ancestors (p : String) : List String :=
  let comps := pathComps p
  ((List.range (comps.length - 1)).map
    (fun i => joinSep "/" (comps.take (i + 1)))).filter (fun a => !(a == ""))

/-- Insert a list of paths as directories. -/
def mkDirs (fs : FsMap) : List String → FsMap
  | [] => fs
  | d :: rest => mkDirs (fsSet fs d .dir) rest

/-- World state threaded through the agent runtime: the filesystem plus
traces of the irreversible OS effects (commands run, processes killed,
files opened, applications launched), and an oracle for shell output.
The oracle stands in for the OS: what a command prints is not derivable
from the sources, but which commands run is, and the traces record it. -/
structure World where
  fs : FsMap
  ranCommands : List String
  killed : List Nat
  opened : List String
  launched : List String
  cmdOutput : String → Json

/-! ## File collaborators (file_operations.rs) -/

/-- File extensions treated as binary (file_operations.rs lines 300
to 306). -/
def binaryExtensions : List String :=
  ["exe", "dll", "so", "dylib", "bin", "dat", "db", "sqlite", "sqlite3",
   "jpg", "jpeg", "png", "gif", "bmp", "ico", "webp", "svg",
   "mp3", "wav", "flac", "ogg", "mp4", "avi", "mkv", "mov",
   "zip", "rar", "7z", "tar", "gz", "bz2", "xz",
   "pdf", "doc", "docx", "xls", "xlsx", "ppt", "pptx"]

/-- Final path component, modelling Path::file_name for paths without a
trailing separator. -/
def lastComp (p : String) : String := (pathComps p).getLastD ""

/-- Extension of a path, modelling Path::extension: the part after the
last dot of the file name, none when there is no dot or the only dot
leads a hidden file name. -/
def extensionOf (p : String) : Option String :=
  let parts := splitOnChar '.' (lastComp p)
  match parts with
  | [] => none
  | [_] => none
  | first :: rest => if first == "" && rest.length == 1 then none
                     else some (rest.getLastD "")

/-- UTF-8 byte length of a character list. -/
def utf8Len (cs : List Char) : Nat := cs.foldl (fun n c => n + c.utf8Size) 0

/-- Characters fully contained in the first n UTF-8 bytes. -/
def takeBytes : Nat → List Char → List Char
  | _, [] => []
  | budget, c :: rest =>
    if c.utf8Size ≤ budget then c :: takeBytes (budget - c.utf8Size) rest
    else []

/-- is_binary_file of file_operations.rs lines 296 to 334, applied to the
stored content of the file at the path: binary extension, then for files
of at most 8192 bytes a NUL scan over the first 512 bytes. -/
def is_binary_file (path content : String) : Bool :=
  let extHit :=
    match extensionOf path with
    | some e => binaryExtensions.contains (strToLower e)
    | none => false
  if extHit then true
  else if utf8Len content.data > 8192 then false
  else (takeBytes 512 content.data).contains (Char.ofNat 0)

/-- read_file_contents of file_operations.rs lines 186 to 204: existence,
regular-file and binary checks, then the exact stored text. -/
def read_file_contents (fs : FsMap) (path : String) : Except String String :=
  match lookupFs fs path with
  | none => .error ("File does not exist: " ++ path)
  | some .dir => .error ("Path is not a file: " ++ path)
  | some (.file content) =>
    if is_binary_file path content then
      .error ("Cannot read binary file as text: " ++ path)
    else .ok content

/-- write_file_contents of file_operations.rs lines 207 to 220:
create_dir_all on the parent chain (failing when an ancestor is a
regular file), then fs::write of the exact bytes (failing when the
target is a directory). The io error texts are abbreviated. -/
def write_file_contents (fs : FsMap) (path content : String) :
    Except String FsMap :=
  if (ancestors path).any (fun a => isFile fs a) then
    .error "Failed to create parent directories: ancestor is a file"
  else if isDir fs path then
    .error "Failed to write file: target is a directory"
  else .ok (fsSet (mkDirs fs (ancestors path)) path (.file content))

/-- Immediate or recursive listing payload of read_directory_contents;
the FileInfo records of the source are abstracted to the paths, which no
claim inspects. -/
def dirListing (fs : FsMap) (p : String) (recursive : Bool) : List String :=
  (fs.filter (fun e =>
    underDir p e.1 &&
    (recursive || !(strContains (strDrop e.1 (p.length + 1)) "/")))).map (·.1)

/-- read_directory_contents of file_operations.rs lines 50 to 108:
existence and directory checks, then the listing. -/
def read_directory_contents (fs : FsMap) (p : String) (recursive : Bool) :
    Except String Json :=
  match lookupFs fs p with
  | none => .error ("Directory does not exist: " ++ p)
  | some (.file _) => .error ("Path is not a directory: " ++ p)
  | some .dir => .ok (.arr ((dirListing fs p recursive).map .str))

/-! ## System collaborators (system_operations.rs) -/

/-- Denylist of execute_terminal_command itself (system_operations.rs
lines 225 to 228), distinct from the permission-policy denylist. -/
def blockedCommands : List String :=
  ["rm -rf /", "format", "del /f", "deltree", "dd if=/dev/zero", "mkfs", "fdisk"]

/-- execute_terminal_command of system_operations.rs lines 223 to 262:
the command denylist check, then the shell invocation, recorded in the
world trace with its output drawn from the oracle. -/
def execute_terminal_command (w : World) (command : String)
    (workingDir : Option String) : Except String Json × World :=
  if blockedCommands.any (fun d => strContains (strToLower command) d) then
    (.error "Command blocked: potentially dangerous operation detected", w)
  else
    (.ok (w.cmdOutput command),
     { w with ranCommands := w.ranCommands ++ [command ++ " @ " ++ (workingDir.getD "")] })

/-- kill_process of system_operations.rs lines 393 to 405: spawns the
kill tool and ignores its exit status, so it succeeds whenever the tool
spawns; the pid is recorded in the world trace. -/
def kill_process (w : World) (pid : Nat) : Except String Unit × World :=
  (.ok (), { w with killed := w.killed ++ [pid] })

/-- launch_application of system_operations.rs lines 68 to 112: path
existence check, then a spawn recorded in the trace; the OS pid is
abstracted to the trace position and the argument list, consumed only by
the spawned process, is not recorded. -/
def launch_application (w : World) (appPath : String)
    (_args : Option (List String)) : Except String Nat × World :=
  match lookupFs w.fs appPath with
  | none => (.error ("Application path does not exist: " ++ appPath), w)
  | some _ => (.ok w.launched.length, { w with launched := w.launched ++ [appPath] })

/-- FileOperationType of system_operations.rs. -/
inductive FileOperationType where
  | copy
  | move
  | delete
  | createDirectory
  | rename

/-- FileSystemOperation of system_operations.rs. -/
structure FileSystemOperation where
  operationType : FileOperationType
  source : String
  destination : Option String
  recursive : Bool

/-- Replace a subtree prefix, used for copy and rename of directories. -/
def replaceTreeKey (src dst key : String) : String :=
  if key == src then dst else dst ++ strDrop key src.length

/-- Entries of the subtree rooted at src, re-rooted at dst. -/
def subtreeAt (fs : FsMap) (src dst : String) : FsMap :=
  (fs.filter (fun e => e.1 == src || underDir src e.1)).map
    (fun e => (replaceTreeKey src dst e.1, e.2))

/-- perform_file_operation of system_operations.rs lines 265 to 319.
Faithful points needed by the claims: the Delete arm removes the file or
directory and falls through to success, with no change, when the source
does not exist; no permission check appears anywhere here. OS-level
failure texts of the io layer are abbreviated. -/
def perform_file_operation (w : World) (op : FileSystemOperation) :
    Except String String × World :=
  match op.operationType with
  | .copy =>
    match op.destination with
    | none => (.error "Destination required for copy operation", w)
    | some dst =>
      if isFile w.fs op.source then
        match lookupFs w.fs op.source with
        | some (.file c) =>
          (.ok ("Copied " ++ op.source ++ " to " ++ dst),
           { w with fs := fsSet w.fs dst (.file c) })
        | _ => (.error "unreachable", w)
      else if isDir w.fs op.source && op.recursive then
        (.ok ("Copied " ++ op.source ++ " to " ++ dst),
         { w with fs := subtreeAt w.fs op.source dst ++ w.fs })
      else (.error "Source is a directory but recursive flag is not set", w)
  | .move =>
    match op.destination with
    | none => (.error "Destination required for move operation", w)
    | some dst =>
      if (lookupFs w.fs op.source).isNone then
        (.error "No such file or directory", w)
      else
        (.ok ("Moved " ++ op.source ++ " to " ++ dst),
         { w with fs := subtreeAt w.fs op.source dst ++ removeSubtree w.fs op.source })
  | .delete =>
    if isFile w.fs op.source then
      (.ok ("Deleted " ++ op.source), { w with fs := removeKey w.fs op.source })
    else if isDir w.fs op.source then
      if op.recursive then
        (.ok ("Deleted " ++ op.source), { w with fs := removeSubtree w.fs op.source })
      else if hasChildren w.fs op.source then
        (.error "Directory not empty", w)
      else
        (.ok ("Deleted " ++ op.source), { w with fs := removeKey w.fs op.source })
    else (.ok ("Deleted " ++ op.source), w)
  | .createDirectory =>
    if op.recursive then
      if (ancestors op.source).any (fun a => isFile w.fs a) || isFile w.fs op.source then
        (.error "File exists", w)
      else
        (.ok ("Created directory " ++ op.source),
         { w with fs := fsSet (mkDirs w.fs (ancestors op.source)) op.source .dir })
    else
      if (lookupFs w.fs op.source).isSome then (.error "File exists", w)
      else
        (.ok ("Created directory " ++ op.source),
         { w with fs := fsSet w.fs op.source .dir })
  | .rename =>
    match op.destination with
    | none => (.error "New name required for rename operation", w)
    | some dst =>
      if (lookupFs w.fs op.source).isNone then
        (.error "No such file or directory", w)
      else
        (.ok ("Renamed " ++ op.source ++ " to " ++ dst),
         { w with fs := subtreeAt w.fs op.source dst ++ removeSubtree w.fs op.source })

/-! ## Agent runtime (agentic.rs) -/

/-- AgentAction of agentic.rs lines 10 to 18. -/
structure AgentAction where
  actionType : String
  description : String
  parameters : Params
  result : Option Json
  success : Bool
  errorMessage : Option String

/-- Mutable per-session state of agentic.rs lines 20 to 28; the Arc and
Mutex wrappers become plain fields under sequential semantics. -/
structure SessionState where
  id : String
  active : Bool
  actions : List AgentAction
  context : Params
  currentDirectory : String
  capabilities : List String

/-- Capability names granted by AgentSession::new (agentic.rs lines 82
to 96). -/
def defaultCapabilities : List String :=
  ["list_directory", "read_file", "write_file", "search_files",
   "open_file", "change_directory", "get_file_info", "launch_application",
   "get_installed_apps", "execute_command", "file_operation",
   "get_processes", "kill_process"]

/-- AgentSession::new of agentic.rs lines 70 to 98; the ambient process
working directory read from the environment is a parameter of the
model. -/
def AgentSession.new (cwd id : String) : SessionState :=
  { id := id
    active := true
    actions := []
    context := []
    currentDirectory := cwd
    capabilities := defaultCapabilities }

/-- Outcome of one handler invocation: the handler result, the possibly
updated session working directory (only change_directory writes it), and
the possibly updated world. -/
structure HandlerOut where
  res : Except String Json
  cwd : String
  world : World

/-- execute_list_directory of agentic.rs lines 277 to 288. -/
def execute_list_directory (s : SessionState) (w : World) (p : Params) :
    HandlerOut :=
  let path := (getStr p "path").getD "."
  let recursive := (getBool p "recursive").getD false
  match read_directory_contents w.fs path recursive with
  | .ok v => ⟨.ok v, s.currentDirectory, w⟩
  | .error e => ⟨.error e, s.currentDirectory, w⟩

/-- execute_read_file of agentic.rs lines 290 to 297. -/
def execute_read_file (s : SessionState) (w : World) (p : Params) :
    HandlerOut :=
  match getStr p "path" with
  | none => ⟨.error "Missing required parameter: path", s.currentDirectory, w⟩
  | some path =>
    match read_file_contents w.fs path with
    | .ok contents => ⟨.ok (.str contents), s.currentDirectory, w⟩
    | .error e => ⟨.error e, s.currentDirectory, w⟩

/-- execute_write_file of agentic.rs lines 299 to 310. -/
def execute_write_file (s : SessionState) (w : World) (p : Params) :
    HandlerOut :=
  match getStr p "path" with
  | none => ⟨.error "Missing required parameter: path", s.currentDirectory, w⟩
  | some path =>
    match getStr p "content" with
    | none => ⟨.error "Missing required parameter: content", s.currentDirectory, w⟩
    | some content =>
      match write_file_contents w.fs path content with
      | .ok fs2 =>
        ⟨.ok (.str ("Successfully wrote to " ++ path)), s.currentDirectory,
         { w with fs := fs2 }⟩
      | .error e => ⟨.error e, s.currentDirectory, w⟩

/-- execute_search_files of agentic.rs lines 312 to 346: the parameter
decoding and the directory validation of search_in_files; the regex hits
are abstracted to an empty listing, which no claim inspects. -/
def execute_search_files (s : SessionState) (w : World) (p : Params) :
    HandlerOut :=
  match getStr p "pattern" with
  | none => ⟨.error "Missing required parameter: pattern", s.currentDirectory, w⟩
  | some _ =>
    let directory := (getStr p "directory").getD "."
    if isDir w.fs directory then ⟨.ok (.arr []), s.currentDirectory, w⟩
    else ⟨.error ("Invalid directory path: " ++ directory), s.currentDirectory, w⟩

/-- execute_open_file of agentic.rs lines 348 to 355 over
open_with_default_app of file_operations.rs lines 36 to 47. -/
def execute_open_file (s : SessionState) (w : World) (p : Params) :
    HandlerOut :=
  match getStr p "path" with
  | none => ⟨.error "Missing required parameter: path", s.currentDirectory, w⟩
  | some path =>
    match lookupFs w.fs path with
    | none => ⟨.error ("Path does not exist: " ++ path), s.currentDirectory, w⟩
    | some _ =>
      ⟨.ok (.str ("Opened " ++ path ++ " with default application")),
       s.currentDirectory, { w with opened := w.opened ++ [path] }⟩

/-- execute_change_directory of agentic.rs lines 357 to 378: the target
must exist and be a directory; only then is the session working
directory written. -/
def execute_change_directory (s : SessionState) (w : World) (p : Params) :
    HandlerOut :=
  match getStr p "path" with
  | none => ⟨.error "Missing required parameter: path", s.currentDirectory, w⟩
  | some path =>
    if isDir w.fs path then
      ⟨.ok (.str ("Changed directory to " ++ path)), path, w⟩
    else
      ⟨.error ("Directory does not exist: " ++ path), s.currentDirectory, w⟩

/-- execute_launch_application of agentic.rs lines 380 to 397. -/
def execute_launch_application (s : SessionState) (w : World) (p : Params) :
    HandlerOut :=
  match getStr p "path" with
  | none => ⟨.error "Missing required parameter: path", s.currentDirectory, w⟩
  | some appPath =>
    let args := (getParam p "arguments").bind Json.asArr? |>.map
      (fun xs => xs.filterMap Json.asStr?)
    match launch_application w appPath args with
    | (.ok pid, w2) =>
      ⟨.ok (.obj [("success", .bool true), ("pid", .num pid),
                  ("message", .str ("Launched application: " ++ appPath))]),
       s.currentDirectory, w2⟩
    | (.error e, w2) => ⟨.error e, s.currentDirectory, w2⟩

/-- execute_get_installed_apps of agentic.rs lines 399 to 402; the OS
application scan is abstracted to an empty listing. -/
def execute_get_installed_apps (s : SessionState) (w : World) (_p : Params) :
    HandlerOut :=
  ⟨.ok (.arr []), s.currentDirectory, w⟩

/-- execute_command of agentic.rs lines 404 to 425: required command
parameter, working directory defaulting to the session directory, the
hard permission gate on a Dangerous classification, then the shell
collaborator. -/
def execute_command_handler (s : SessionState) (w : World) (p : Params) :
    HandlerOut :=
  match getStr p "command" with
  | none => ⟨.error "Missing required parameter: command", s.currentDirectory, w⟩
  | some command =>
    let workingDir :=
      match getStr p "working_directory" with
      | some d => some d
      | none => some s.currentDirectory
    let permission := check_permission_level "execute_command" p
    if permission.level = .Dangerous then
      ⟨.error ("Command requires explicit user permission: " ++ command),
       s.currentDirectory, w⟩
    else
      match execute_terminal_command w command workingDir with
      | (.ok v, w2) => ⟨.ok v, s.currentDirectory, w2⟩
      | (.error e, w2) => ⟨.error e, s.currentDirectory, w2⟩

/-- execute_file_operation of agentic.rs lines 427 to 462: parameter
decoding and dispatch to perform_file_operation. The source contains no
permission check on this path. -/
def execute_file_operation (s : SessionState) (w : World) (p : Params) :
    HandlerOut :=
  match getStr p "operation_type" with
  | none => ⟨.error "Missing required parameter: operation_type", s.currentDirectory, w⟩
  | some operationType =>
    match getStr p "source" with
    | none => ⟨.error "Missing required parameter: source", s.currentDirectory, w⟩
    | some source =>
      let destination := getStr p "destination"
      let recursive := (getBool p "recursive").getD false
      let opType : Option FileOperationType :=
        if operationType == "copy" then some .copy
        else if operationType == "move" then some .move
        else if operationType == "delete" then some .delete
        else if operationType == "create_directory" then some .createDirectory
        else if operationType == "rename" then some .rename
        else none
      match opType with
      | none => ⟨.error ("Invalid operation type: " ++ operationType),
                 s.currentDirectory, w⟩
      | some t =>
        match perform_file_operation w
          { operationType := t, source := source,
            destination := destination, recursive := recursive } with
        | (.ok msg, w2) => ⟨.ok (.str msg), s.currentDirectory, w2⟩
        | (.error e, w2) => ⟨.error e, s.currentDirectory, w2⟩

/-- execute_get_processes of agentic.rs lines 464 to 467; the OS process
listing is abstracted to an empty listing. -/
def execute_get_processes (s : SessionState) (w : World) (_p : Params) :
    HandlerOut :=
  ⟨.ok (.arr []), s.currentDirectory, w⟩

/-- execute_kill_process of agentic.rs lines 469 to 483: required pid,
the hard permission gate on a Dangerous classification, then the kill
collaborator. -/
def execute_kill_process (s : SessionState) (w : World) (p : Params) :
    HandlerOut :=
  match getU64 p "pid" with
  | none => ⟨.error "Missing required parameter: pid", s.currentDirectory, w⟩
  | some pid =>
    let permission := check_permission_level "kill_process" p
    if permission.level = .Dangerous then
      ⟨.error ("Killing process requires explicit user permission: PID " ++ toString pid),
       s.currentDirectory, w⟩
    else
      match kill_process w pid with
      | (.ok _, w2) =>
        ⟨.ok (.str ("Successfully terminated process with PID: " ++ toString pid)),
         s.currentDirectory, w2⟩
      | (.error e, w2) => ⟨.error e, s.currentDirectory, w2⟩

/-- Action names with a handler arm in the dispatcher match of
agentic.rs lines 242 to 255. -/
def handlerNames : List String :=
  ["list_directory", "read_file", "write_file", "search_files",
   "open_file", "change_directory", "launch_application",
   "get_installed_apps", "execute_command", "file_operation",
   "get_processes", "kill_process"]

/-- Dispatcher match of execute_action (agentic.rs lines 242 to 256);
the Rust match over string literals becomes the equivalent comparison
chain, with the unknown-type error as the fallback arm. -/
def dispatchAction (s : SessionState) (w : World) (t : String) (p : Params) :
    HandlerOut :=
  if t = "list_directory" then execute_list_directory s w p
  else if t = "read_file" then execute_read_file s w p
  else if t = "write_file" then execute_write_file s w p
  else if t = "search_files" then execute_search_files s w p
  else if t = "open_file" then execute_open_file s w p
  else if t = "change_directory" then execute_change_directory s w p
  else if t = "launch_application" then execute_launch_application s w p
  else if t = "get_installed_apps" then execute_get_installed_apps s w p
  else if t = "execute_command" then execute_command_handler s w p
  else if t = "file_operation" then execute_file_operation s w p
  else if t = "get_processes" then execute_get_processes s w p
  else if t = "kill_process" then execute_kill_process s w p
  else ⟨.error ("Unknown action type: " ++ t), s.currentDirectory, w⟩

/-- Completion of the draft AgentAction from the handler outcome
(agentic.rs lines 233 to 240 and 258 to 269). -/
def finalizeAction (t : String) (p : Params) (res : Except String Json) :
    AgentAction :=
  match res with
  | .ok v =>
    { actionType := t
      description := "Successfully executed " ++ t
      parameters := p
      result := some v
      success := true
      errorMessage := none }
  | .error e =>
    { actionType := t
      description := "Failed to execute " ++ t ++ ": " ++ e
      parameters := p
      result := none
      success := false
      errorMessage := some e }

/-- Result of one dispatched call. -/
structure DispatchOut where
  action : AgentAction
  session : SessionState
  world : World

/-- execute_action of agentic.rs lines 232 to 275: dispatch, outcome
recording, and the unconditional append of the completed AgentAction to
the session audit log; the call returns the action as data whether it
succeeded or failed. -/
def executeAction (s : SessionState) (w : World) (t : String) (p : Params) :
    DispatchOut :=
  let d := dispatchAction s w t p
  let act := finalizeAction t p d.res
  { action := act
    session := { s with currentDirectory := d.cwd, actions := s.actions ++ [act] }
    world := d.world }

/-- Result of a sequence of dispatched calls. -/
structure RunOut where
  session : SessionState
  world : World
  returned : List AgentAction

/-- Sequential dispatch of a list of calls against one session, each call
as execute_action. -/
def runActions (s : SessionState) (w : World) :
    List (String × Params) → RunOut
  | [] => ⟨s, w, []⟩
  | (t, p) :: rest =>
    let r := executeAction s w t p
    let rec2 := runActions r.session r.world rest
    ⟨rec2.session, rec2.world, r.action :: rec2.returned⟩

/-! ## Streaming pipeline (database.rs, send_chat_completion_streaming) -/

/-- Delta extraction of database.rs lines 590 to 595 from one data
payload: JSON decoding is an oracle parameter, the navigation through
choices, delta and content follows the source exactly. -/
def extractDeltaContent (parseJson : String → Option Json) (data : String) :
    Option String :=
  match parseJson data with
  | none => none
  | some j =>
    match (j.getKey "choices").asArr? with
    | none => none
    | some choices =>
      match choices.head? with
      | none => none
      | some choice =>
        match (choice.getKey "delta").asObj? with
        | none => none
        | some delta =>
          match (delta.find? (fun e => e.1 == "content")).map (·.2) with
          | none => none
          | some c => c.asStr?

/-- Line loop of database.rs lines 583 to 609 over one network chunk:
recognize the data prefix, stop the line loop at the DONE token, append
each extracted delta to the accumulator and emit it. Returns the updated
accumulator and emission list. -/
def processLines (parseJson : String → Option Json) :
    List String → String → List String → String × List String
  | [], acc, em => (acc, em)
  | line :: rest, acc, em =>
    if strStartsWith line "data: " then
      let data := strDrop line 6
      if data = "[DONE]" then (acc, em)
      else
        match extractDeltaContent parseJson data with
        | some c => processLines parseJson rest (acc ++ c) (em ++ [c])
        | none => processLines parseJson rest acc em
    else processLines parseJson rest acc em

/-- Outer stream loop of database.rs lines 578 to 610 over the network
chunks, each given as its list of text lines. -/
def processStream (parseJson : String → Option Json) :
    List (List String) → String → List String → String × List String
  | [], acc, em => (acc, em)
  | chunk :: rest, acc, em =>
    let r := processLines parseJson chunk acc em
    processStream parseJson rest r.1 r.2

/-- Observable outcome of one streaming completion: the emitted chunk
payloads in order, the content of the final completion event, and the
function return value. -/
structure StreamOut where
  emitted : List String
  finalContent : String
  returned : String

/-- Native OpenAI streaming path of database.rs lines 549 to 620: the
full_response accumulator is emitted as the completion event content and
returned. -/
def runNativeStream (parseJson : String → Option Json)
    (chunks : List (List String)) : StreamOut :=
  let r := processStream parseJson chunks "" []
  ⟨r.2, r.1, r.1⟩

/-- Per-word chunk list of the simulated path (database.rs lines 630 to
641): every word is emitted followed by one space. -/
def simulateChunks : List String → List String
  | [] => []
  | word :: rest => (word ++ " ") :: simulateChunks rest

/-- Simulated streaming path of database.rs lines 622 to 655 for every
non-OpenAI provider: the complete response is split on whitespace, each
word emitted as a chunk with a trailing space, and the original response
is both the completion event content and the return value. The
inter-chunk delay and the running full_content field are immaterial to
the verified law and omitted. -/
def simulateStream (response : String) : StreamOut :=
  ⟨simulateChunks (splitWs response), response, response⟩

/-! ## Provider adapters (database.rs, send_chat_completion) -/

/-- Vendor tags of models.rs lines 51 to 62. -/
inductive ApiProvider where
  | openai
  | anthropic
  | google
  | ollama
  | custom

/-- Message shape of the typed OpenAI response (models.rs lines 127
to 141). -/
structure ChatMsg where
  role : String
  content : String

structure ChatChoice where
  message : ChatMsg

structure ChatCompletionResponse where
  choices : List ChatChoice

/-- HTTP response as seen by the completion call: status code and raw
body text. -/
structure HttpResponse where
  status : Nat
  body : String

/-- reqwest StatusCode::is_success. -/
def statusIsSuccess (n : Nat) : Bool := decide (200 ≤ n) && decide (n < 300)

/-- Navigation of the Anthropic response shape
(database.rs line 403). -/
def anthropicContent (j : Json) : Option String :=
  (((j.getKey "content").getIdx 0).getKey "text").asStr?

/-- Navigation of the Ollama response shape (database.rs line 438). -/
def ollamaContent (j : Json) : Option String :=
  ((j.getKey "message").getKey "content").asStr?

/-- Navigation of the Google response shape (database.rs line 478). -/
def googleContent (j : Json) : Option String :=
  (((((j.getKey "candidates").getIdx 0).getKey "content").getKey "parts").getIdx 0
    |>.getKey "text").asStr?

/-- Response-handling phase of send_chat_completion (database.rs lines
324 to 536), per provider. Request construction and the HTTP exchange
are outside this model: the function consumes the HttpResponse the
transport produced. serde typed decoding and Value decoding are oracle
parameters; the reqwest decode-failure message for the Value path does
not include the body, as in the library. -/
def send_chat_completion
    (parseTyped : String → Except String ChatCompletionResponse)
    (parseJson : String → Option Json)
    (provider : ApiProvider) (resp : HttpResponse) : Except String String :=
  match provider with
  | .openai =>
    if !statusIsSuccess resp.status then
      .error ("API request failed: " ++ resp.body)
    else
      match parseTyped resp.body with
      | .ok completion =>
        match completion.choices.head? with
        | some choice => .ok choice.message.content
        | none => .error "No response choices from API"
      | .error parseError =>
        .error ("Failed to parse API response: " ++ parseError ++
                ". Response: " ++ resp.body)
  | .anthropic =>
    if !statusIsSuccess resp.status then
      .error ("Anthropic API request failed: " ++ resp.body)
    else
      match parseJson resp.body with
      | none => .error "error decoding response body"
      | some j =>
        match anthropicContent j with
        | some content => .ok content
        | none => .error "Invalid response format from Anthropic API"
  | .ollama =>
    if !statusIsSuccess resp.status then
      .error ("Ollama API request failed: " ++ resp.body)
    else
      match parseJson resp.body with
      | none => .error "error decoding response body"
      | some j =>
        match ollamaContent j with
        | some content => .ok content
        | none => .error "Invalid response format from Ollama API"
  | .google =>
    if !statusIsSuccess resp.status then
      .error ("Google API request failed: " ++ resp.body)
    else
      match parseJson resp.body with
      | none => .error "error decoding response body"
      | some j =>
        match googleContent j with
        | some content => .ok content
        | none => .error "Invalid response format from Google API"
  | .custom =>
    if !statusIsSuccess resp.status then
      .error ("Custom API request failed: " ++ resp.body)
    else
      match parseTyped resp.body with
      | .ok completion =>
        match completion.choices.head? with
        | some choice => .ok choice.message.content
        | none => .error "No response choices from custom API"
      | .error parseError =>
        .error ("Failed to parse custom API response: " ++ parseError ++
                ". Response: " ++ resp.body)

/-! ## Session store commands (commands.rs) -/

/-- Shared session registry of commands.rs: the managed
Mutex(HashMap(String, AgentSession)) under sequential semantics. -/
abbrev SessionStore := List (String × SessionState)

def storeLookup (st : SessionStore) (id : String) : Option SessionState :=
  (st.find? (fun e => e.1 == id)).map (·.2)

def storeSet (st : SessionStore) (id : String) (s : SessionState) :
    SessionStore :=
  (id, s) :: st.filter (fun e => !(e.1 == id))

/-- create_agent_session of commands.rs lines 371 to 374: it builds and
returns a fresh AgentSession and, as its signature shows, never receives
or touches the shared store. -/
def create_agent_session (cwd id : String) : SessionState :=
  AgentSession.new cwd id

/-- execute_agent_action of commands.rs lines 382 to 400: store lookup
with a hard failure when the id is absent, then dispatch; the updated
session is written back, reflecting the Arc sharing of the audit log. -/
def execute_agent_action (st : SessionStore) (w : World) (id t : String)
    (p : Params) : Except String (AgentAction × SessionStore × World) :=
  match storeLookup st id with
  | none => .error "Agent session not found"
  | some s =>
    let r := executeAction s w t p
    .ok (r.action, storeSet st id r.session, r.world)

/-- get_agent_session of commands.rs lines 403 to 412. -/
def get_agent_session (st : SessionStore) (id : String) :
    Except String SessionState :=
  match storeLookup st id with
  | none => .error "Agent session not found"
  | some s => .ok s

/-- create_or_get_agent_session of commands.rs lines 415 to 429: returns
the stored session when present and otherwise inserts a fresh one. -/
def create_or_get_agent_session (cwd : String) (st : SessionStore)
    (id : String) : SessionState × SessionStore :=
  match storeLookup st id with
  | some s => (s, st)
  | none =>
    let ns := AgentSession.new cwd id
    (ns, storeSet st id ns)

/-! ## Helper lemmas -/

theorem strApp_empty_right (s : String) : s ++ "" = s := by
  obtain ⟨d⟩ := s
  show String.mk (d ++ []) = String.mk d
  rw [List.append_nil]

theorem strApp_assoc (a b c : String) : (a ++ b) ++ c = a ++ (b ++ c) := by
  obtain ⟨x⟩ := a; obtain ⟨y⟩ := b; obtain ⟨z⟩ := c
  show String.mk ((x ++ y) ++ z) = String.mk (x ++ (y ++ z))
  rw [List.append_assoc]

theorem strData_append (a b : String) : (a ++ b).data = a.data ++ b.data := by
  obtain ⟨x⟩ := a; obtain ⟨y⟩ := b; rfl

theorem listPre_refl (l : List Char) : listPre l l = true := by
  induction l with
  | nil => rfl
  | cons x xs ih => simp [listPre, ih]

theorem listPre_append (p l m : List Char) (h : listPre p l = true) :
    listPre p (l ++ m) = true := by
  induction p generalizing l with
  | nil => rfl
  | cons a as ih =>
    cases l with
    | nil => simp [listPre] at h
    | cons b bs =>
      simp [listPre] at h ⊢
      exact ⟨h.1, ih bs h.2⟩

theorem subOf_self_suffix (p l : List Char) : subOf p (l ++ p) = true := by
  induction l with
  | nil =>
    cases p with
    | nil => rfl
    | cons x xs => simp [subOf, listPre_refl]
  | cons x xs ih => simp [subOf, ih]

theorem subOf_extend (p a b : List Char) (h : subOf p a = true) :
    subOf p (a ++ b) = true := by
  induction a with
  | nil =>
    cases p with
    | nil => cases b <;> simp [subOf, listPre]
    | cons x xs => simp [subOf] at h
  | cons x xs ih =>
    simp only [subOf, List.cons_append, Bool.or_eq_true] at h ⊢
    rcases h with h | h
    · exact Or.inl (listPre_append _ _ _ h)
    · exact Or.inr (ih h)

theorem strContains_append_right (a b : String) :
    strContains (a ++ b) b = true := by
  unfold strContains
  rw [strData_append]
  exact subOf_self_suffix b.data a.data

theorem strContains_mono_left (a b pat : String)
    (h : strContains a pat = true) : strContains (a ++ b) pat = true := by
  unfold strContains at h ⊢
  rw [strData_append]
  exact subOf_extend _ _ _ h

/-- Both arms of the kill_process clause of check_permission_level
classify as Dangerous, with or without a pid parameter. -/
theorem killPermDangerous (p : Params) :
    (check_permission_level "kill_process" p).level = PermissionLevel.Dangerous := by
  unfold check_permission_level
  cases h : getParam p "pid" <;> simp [h]

theorem lookupFs_fsSet_self (fs : FsMap) (p : String) (e : FsEntry) :
    lookupFs (fsSet fs p e) p = some e := by
  simp [lookupFs, fsSet, List.find?]

theorem concatAll_append (l m : List String) :
    concatAll (l ++ m) = concatAll l ++ concatAll m := by
  induction l with
  | nil =>
    show concatAll m = "" ++ concatAll m
    obtain ⟨d⟩ := concatAll m
    rfl
  | cons x xs ih =>
    show x ++ concatAll (xs ++ m) = (x ++ concatAll xs) ++ concatAll m
    rw [ih, strApp_assoc]

theorem processLines_inv (pj : String → Option Json) (lines : List String)
    (acc : String) (em : List String) (h : concatAll em = acc) :
    concatAll (processLines pj lines acc em).2 = (processLines pj lines acc em).1 := by
  induction lines generalizing acc em with
  | nil => simpa [processLines] using h
  | cons line rest ih =>
    simp only [processLines]
    split
    · split
      · simpa using h
      · split
        · apply ih
          rw [concatAll_append, h]
          show acc ++ (_ ++ "") = acc ++ _
          rw [strApp_empty_right]
        · exact ih acc em h
    · exact ih acc em h

theorem processStream_inv (pj : String → Option Json)
    (chunks : List (List String)) (acc : String) (em : List String)
    (h : concatAll em = acc) :
    concatAll (processStream pj chunks acc em).2 =
      (processStream pj chunks acc em).1 := by
  induction chunks generalizing acc em with
  | nil => simpa [processStream] using h
  | cons chunk rest ih =>
    simp only [processStream]
    exact ih _ _ (processLines_inv pj chunk acc em h)

theorem concat_simulateChunks (ws : List String) :
    concatAll (simulateChunks ws) =
      (if ws = [] then "" else spaceJoin ws ++ " ") := by
  induction ws with
  | nil => rfl
  | cons w rest ih =>
    cases rest with
    | nil =>
      show (w ++ " ") ++ "" = w ++ " "
      exact strApp_empty_right _
    | cons v vs =>
      have h1 : concatAll (simulateChunks (w :: v :: vs)) =
          (w ++ " ") ++ concatAll (simulateChunks (v :: vs)) := rfl
      rw [h1, ih, if_neg (by simp), if_neg (by simp)]
      simp only [spaceJoin]
      simp [strApp_assoc]

/-! ## Concrete fixtures for counterexamples and witnesses -/

/-- Fresh session rooted at the filesystem root. -/
def s1 : SessionState := AgentSession.new "/" "s1"

/-- World holding a system file under a guarded directory root. -/
def w1 : World :=
  { fs := [("/etc", FsEntry.dir), ("/etc/passwd", FsEntry.file "root")]
    ranCommands := [], killed := [], opened := [], launched := []
    cmdOutput := fun _ => Json.null }

/-- World with an empty filesystem. -/
def w2 : World :=
  { fs := [], ranCommands := [], killed := [], opened := [], launched := []
    cmdOutput := fun _ => Json.null }

/-- Typed-parse oracle that always reports a serde failure. -/
def pt0 : String → Except String ChatCompletionResponse :=
  fun _ => .error "expected struct"

/-- Value-parse oracle decoding the empty JSON object and nothing else. -/
def pj0 : String → Option Json :=
  fun s => if s = "\x7b\x7d" then some (Json.obj []) else none

/-! ## Claim theorems -/

/-- C1, counterexample to the claim as stated: the file_operation action
deletes a file whose deletion PermissionPolicy classifies as Dangerous
(a path under the guarded /etc root). The dispatch succeeds and the file
is gone, so the Dangerous classification did not short-circuit file
deletion and the underlying effect was performed. -/
theorem C1_delete_ungated_counterexample :
    (check_permission_level "delete_file" [("path", Json.str "/etc/passwd")]).level
      = PermissionLevel.Dangerous ∧
    (executeAction s1 w1 "file_operation"
      [("operation_type", Json.str "delete"),
       ("source", Json.str "/etc/passwd")]).action.success = true ∧
    isFile (executeAction s1 w1 "file_operation"
      [("operation_type", Json.str "delete"),
       ("source", Json.str "/etc/passwd")]).world.fs "/etc/passwd" = false := by
  decide

/-- C1, amended: for the execute_command and kill_process actions a
Dangerous classification (with the required parameter present)
short-circuits the dispatcher to a failed AgentAction whose error
mentions explicit user permission, and the world is untouched: no
command runs and no process is killed. The file_operation action is not
part of the gated set; its deletion path never consults
PermissionPolicy. -/
theorem C1_privileged_gating_amended (s : SessionState) (w : World)
    (pc pk : Params) (cmd : String) (pid : Nat)
    (hc : getStr pc "command" = some cmd)
    (hd : (check_permission_level "execute_command" pc).level = PermissionLevel.Dangerous)
    (hp : getU64 pk "pid" = some pid) :
    (executeAction s w "execute_command" pc).action.success = false ∧
    (executeAction s w "execute_command" pc).world = w ∧
    strContains ((executeAction s w "execute_command" pc).action.errorMessage.getD "")
      "requires explicit user permission" = true ∧
    (executeAction s w "kill_process" pk).action.success = false ∧
    (executeAction s w "kill_process" pk).world = w ∧
    strContains ((executeAction s w "kill_process" pk).action.errorMessage.getD "")
      "requires explicit user permission" = true := by
  have e1 : dispatchAction s w "execute_command" pc = execute_command_handler s w pc := rfl
  have e2 : dispatchAction s w "kill_process" pk = execute_kill_process s w pk := rfl
  have hk := killPermDangerous pk
  have d1 : dispatchAction s w "execute_command" pc =
      ⟨Except.error ("Command requires explicit user permission: " ++ cmd),
        s.currentDirectory, w⟩ := by
    rw [e1]; simp [execute_command_handler, hc, hd]
  have d2 : dispatchAction s w "kill_process" pk =
      ⟨Except.error ("Killing process requires explicit user permission: PID " ++ toString pid),
        s.currentDirectory, w⟩ := by
    rw [e2]; simp [execute_kill_process, hp, hk]
  refine ⟨?_, ?_, ?_, ?_, ?_, ?_⟩
  · simp [executeAction, d1, finalizeAction]
  · simp [executeAction, d1]
  · simp only [executeAction, d1, finalizeAction, Option.getD_some]
    exact strContains_mono_left "Command requires explicit user permission: " cmd _ (by decide)
  · simp [executeAction, d2, finalizeAction]
  · simp [executeAction, d2]
  · simp only [executeAction, d2, finalizeAction, Option.getD_some]
    exact strContains_mono_left "Killing process requires explicit user permission: PID "
      (toString pid) _ (by decide)

/-- C1 witness: the amended theorem applied at a sudo command (classified
Dangerous by the denylist) and a concrete pid. -/
theorem C1_privileged_gating_witness :
    (executeAction s1 w1 "execute_command"
      [("command", Json.str "sudo reboot")]).action.success = false ∧
    (executeAction s1 w1 "execute_command"
      [("command", Json.str "sudo reboot")]).world = w1 ∧
    (executeAction s1 w1 "kill_process"
      [("pid", Json.num 3)]).action.success = false ∧
    (executeAction s1 w1 "kill_process"
      [("pid", Json.num 3)]).world = w1 := by
  have h := C1_privileged_gating_amended s1 w1
    [("command", Json.str "sudo reboot")] [("pid", Json.num 3)]
    "sudo reboot" 3 (by decide) (by decide) (by decide)
  exact ⟨h.1, h.2.1, h.2.2.2.1, h.2.2.2.2.1⟩

/-- C2, counterexample to the claim as stated: on the simulated
word-chunked path the emitted chunk payloads concatenate to the text
with a trailing space, which differs from the content of the completion
event already for the one-word response. -/
theorem C2_simulated_chunk_counterexample :
    (simulateStream "hi").finalContent = "hi" ∧
    concatAll (simulateStream "hi").emitted = "hi " ∧
    ¬ (concatAll (simulateStream "hi").emitted = (simulateStream "hi").finalContent) := by
  decide

/-- C2, amended: on the native OpenAI streaming path the concatenation
of the emitted chunks equals the final completion content, which is the
return value, for every delta-extraction oracle and chunk sequence; on
the simulated path the emitted chunks are exactly the whitespace words
of the final content each followed by one space, so their concatenation
is the single-space join of those words plus a trailing space, while the
completion content and return value are the unmodified response. -/
theorem C2_stream_reconstruction_amended (pj : String → Option Json)
    (chunks : List (List String)) (r : String) :
    concatAll (runNativeStream pj chunks).emitted = (runNativeStream pj chunks).finalContent ∧
    (runNativeStream pj chunks).returned = (runNativeStream pj chunks).finalContent ∧
    (simulateStream r).emitted = simulateChunks (splitWs r) ∧
    concatAll (simulateStream r).emitted =
      (if splitWs r = [] then "" else spaceJoin (splitWs r) ++ " ") ∧
    (simulateStream r).finalContent = r ∧
    (simulateStream r).returned = r := by
  refine ⟨?_, rfl, rfl, ?_, rfl, rfl⟩
  · exact processStream_inv pj chunks "" [] rfl
  · exact concat_simulateChunks (splitWs r)

/-- C3: every dispatched call appends exactly one AgentAction to the
audit log of the session, success or failure alike, so after any finite
sequence of dispatches the log is the initial log extended by the
returned actions, one per call and in call order. -/
theorem C3_audit_log_per_dispatch (s : SessionState) (w : World)
    (calls : List (String × Params)) :
    (runActions s w calls).session.actions = s.actions ++ (runActions s w calls).returned ∧
    (runActions s w calls).returned.length = calls.length := by
  induction calls generalizing s w with
  | nil => simp [runActions]
  | cons c rest ih =>
    obtain ⟨t, p⟩ := c
    have h := ih (executeAction s w t p).session (executeAction s w t p).world
    constructor
    · simp only [runActions]
      rw [h.1]
      show (executeAction s w t p).session.actions ++ _ = s.actions ++ _
      simp [executeAction, List.append_assoc]
    · simp only [runActions, List.length_cons]
      rw [h.2]

/-- C4, counterexample to the claim as stated: the unknown-action error
is capitalized as Unknown action type, so the error message does not
contain the lowercase text the claim quotes. -/
theorem C4_lowercase_containment_counterexample :
    (executeAction s1 w1 "teleport" []).action.errorMessage =
      some "Unknown action type: teleport" ∧
    strContains ((executeAction s1 w1 "teleport" []).action.errorMessage.getD "")
      "unknown action type" = false := by
  decide

/-- C4, amended: dispatching any action name outside the handler set
returns a failed AgentAction whose error message is the unknown-action
text (containing Unknown action type with the capitalization of the
code), invokes no handler (the world and the session working directory
are untouched), and the failed action is still appended to the audit
log. -/
theorem C4_unknown_action_amended (s : SessionState) (w : World)
    (p : Params) (t : String) (h : ¬ t ∈ handlerNames) :
    (executeAction s w t p).action.success = false ∧
    (executeAction s w t p).action.errorMessage = some ("Unknown action type: " ++ t) ∧
    strContains ("Unknown action type: " ++ t) "Unknown action type" = true ∧
    (executeAction s w t p).world = w ∧
    (executeAction s w t p).session.currentDirectory = s.currentDirectory ∧
    (executeAction s w t p).session.actions = s.actions ++ [(executeAction s w t p).action] := by
  simp only [handlerNames, List.mem_cons, List.not_mem_nil, or_false, not_or] at h
  obtain ⟨h1, h2, h3, h4, h5, h6, h7, h8, h9, h10, h11, h12⟩ := h
  have d : dispatchAction s w t p =
      ⟨Except.error ("Unknown action type: " ++ t), s.currentDirectory, w⟩ := by
    simp [dispatchAction, h1, h2, h3, h4, h5, h6, h7, h8, h9, h10, h11, h12]
  refine ⟨?_, ?_, ?_, ?_, ?_, ?_⟩
  · simp [executeAction, d, finalizeAction]
  · simp [executeAction, d, finalizeAction]
  · exact strContains_mono_left "Unknown action type: " t _ (by decide)
  · simp [executeAction, d]
  · simp [executeAction, d]
  · simp [executeAction]

/-- C4 witness: the amended theorem applied at the action name
teleport. -/
theorem C4_unknown_action_witness :
    (executeAction s1 w1 "teleport" []).action.success = false ∧
    (executeAction s1 w1 "teleport" []).action.errorMessage =
      some ("Unknown action type: " ++ "teleport") ∧
    (executeAction s1 w1 "teleport" []).session.actions =
      s1.actions ++ [(executeAction s1 w1 "teleport" []).action] := by
  have h := C4_unknown_action_amended s1 w1 [] "teleport" (by decide)
  exact ⟨h.1, h.2.1, h.2.2.2.2.2⟩

/-- C5, counterexample to the claim as stated: a 2xx Anthropic response
whose body is the empty JSON object decodes but does not match the
expected shape, and the resulting error is a fixed invalid-format
message that does not retain the raw body. -/
theorem C5_anthropic_body_lost_counterexample :
    send_chat_completion pt0 pj0 ApiProvider.anthropic ⟨200, "\x7b\x7d"⟩ =
      .error "Invalid response format from Anthropic API" ∧
    strContains "Invalid response format from Anthropic API" "\x7b\x7d" = false := by
  constructor
  · rfl
  · decide

/-- C5, amended: a non-2xx status fails with an error carrying the raw
body for every provider; a 2xx body that fails the typed parse fails
with an error retaining the raw body for the OpenAI-compatible and
Custom providers; for Anthropic, Ollama and Google a decoded 2xx body
that does not match the expected shape fails with a fixed
invalid-format error that does not include the body. -/
theorem C5_provider_errors_amended
    (pt : String → Except String ChatCompletionResponse)
    (pj : String → Option Json) (resp : HttpResponse) :
    (statusIsSuccess resp.status = false →
      ∀ prov : ApiProvider, ∃ m, send_chat_completion pt pj prov resp = .error m ∧
        strContains m resp.body = true) ∧
    (statusIsSuccess resp.status = true →
      (∀ e, pt resp.body = .error e →
        (∃ m, send_chat_completion pt pj .openai resp = .error m ∧
          strContains m resp.body = true) ∧
        (∃ m, send_chat_completion pt pj .custom resp = .error m ∧
          strContains m resp.body = true)) ∧
      (∀ j, pj resp.body = some j →
        (anthropicContent j = none →
          send_chat_completion pt pj .anthropic resp =
            .error "Invalid response format from Anthropic API") ∧
        (ollamaContent j = none →
          send_chat_completion pt pj .ollama resp =
            .error "Invalid response format from Ollama API") ∧
        (googleContent j = none →
          send_chat_completion pt pj .google resp =
            .error "Invalid response format from Google API"))) := by
  constructor
  · intro hs prov
    cases prov with
    | openai =>
      refine ⟨"API request failed: " ++ resp.body, ?_, strContains_append_right _ _⟩
      simp [send_chat_completion, hs]
    | anthropic =>
      refine ⟨"Anthropic API request failed: " ++ resp.body, ?_, strContains_append_right _ _⟩
      simp [send_chat_completion, hs]
    | google =>
      refine ⟨"Google API request failed: " ++ resp.body, ?_, strContains_append_right _ _⟩
      simp [send_chat_completion, hs]
    | ollama =>
      refine ⟨"Ollama API request failed: " ++ resp.body, ?_, strContains_append_right _ _⟩
      simp [send_chat_completion, hs]
    | custom =>
      refine ⟨"Custom API request failed: " ++ resp.body, ?_, strContains_append_right _ _⟩
      simp [send_chat_completion, hs]
  · intro hs
    constructor
    · intro e he
      constructor
      · refine ⟨"Failed to parse API response: " ++ e ++ ". Response: " ++ resp.body, ?_, ?_⟩
        · simp [send_chat_completion, hs, he]
        · exact strContains_append_right _ _
      · refine ⟨"Failed to parse custom API response: " ++ e ++ ". Response: " ++ resp.body, ?_, ?_⟩
        · simp [send_chat_completion, hs, he]
        · exact strContains_append_right _ _
    · intro j hj
      refine ⟨?_, ?_, ?_⟩ <;> intro hn <;>
        simp [send_chat_completion, hs, hj, hn]

/-- C5 witness: the amended theorem applied at a 500 response for the
OpenAI provider and at a 200 empty-object response for the Ollama
provider. -/
theorem C5_provider_errors_witness :
    (∃ m, send_chat_completion pt0 pj0 ApiProvider.openai ⟨500, "boom"⟩ = .error m ∧
      strContains m "boom" = true) ∧
    send_chat_completion pt0 pj0 ApiProvider.ollama ⟨200, "\x7b\x7d"⟩ =
      .error "Invalid response format from Ollama API" := by
  constructor
  · exact (C5_provider_errors_amended pt0 pj0 ⟨500, "boom"⟩).1 (by decide) ApiProvider.openai
  · exact (((C5_provider_errors_amended pt0 pj0 ⟨200, "\x7b\x7d"⟩).2 (by decide)).2
      (Json.obj []) (by rfl)).2.1 (by rfl)

/-- C6: for every session, world and parameter bag, the kill_process
action dispatched through execute_action is classified Dangerous by
check_permission_level, returns a failed AgentAction, and leaves the
world untouched, so the success branch of the handler is unreachable
and no process is ever killed on this path. -/
theorem C6_kill_process_always_blocked (s : SessionState) (w : World) (p : Params) :
    (check_permission_level "kill_process" p).level = PermissionLevel.Dangerous ∧
    (executeAction s w "kill_process" p).action.success = false ∧
    (executeAction s w "kill_process" p).world = w := by
  have hd := killPermDangerous p
  refine ⟨hd, ?_, ?_⟩ <;>
  · have e : dispatchAction s w "kill_process" p = execute_kill_process s w p := rfl
    simp only [executeAction, e, execute_kill_process]
    cases hp : getU64 p "pid" with
    | none => simp [finalizeAction]
    | some pid => simp [hd, finalizeAction]

/-- C7: dispatching change_directory with a path parameter fails and
leaves the session working directory unchanged when the path is not an
existing directory, and succeeds mutating the working directory to that
path exactly when it is one. -/
theorem C7_change_directory_frame (s : SessionState) (w : World)
    (p : Params) (path : String) (hp : getStr p "path" = some path) :
    (isDir w.fs path = false →
      (executeAction s w "change_directory" p).action.success = false ∧
      (executeAction s w "change_directory" p).session.currentDirectory = s.currentDirectory) ∧
    (isDir w.fs path = true →
      (executeAction s w "change_directory" p).action.success = true ∧
      (executeAction s w "change_directory" p).session.currentDirectory = path) := by
  have e : dispatchAction s w "change_directory" p = execute_change_directory s w p := rfl
  constructor <;> intro h <;>
    simp [executeAction, e, execute_change_directory, hp, h, finalizeAction]

/-- C7 witness: the theorem applied at a missing path and at an existing
directory of the fixture world. -/
theorem C7_change_directory_witness :
    (executeAction s1 w1 "change_directory" [("path", Json.str "/nope")]).action.success = false ∧
    (executeAction s1 w1 "change_directory"
      [("path", Json.str "/nope")]).session.currentDirectory = s1.currentDirectory ∧
    (executeAction s1 w1 "change_directory"
      [("path", Json.str "/etc")]).session.currentDirectory = "/etc" := by
  have h1 := C7_change_directory_frame s1 w1 [("path", Json.str "/nope")] "/nope" (by decide)
  have h2 := C7_change_directory_frame s1 w1 [("path", Json.str "/etc")] "/etc" (by decide)
  exact ⟨(h1.1 (by decide)).1, (h1.1 (by decide)).2, (h2.2 (by decide)).2⟩

/-- C8, counterexample to the claim as stated: writing text to a path
with a png extension succeeds, but the subsequent read fails because
read_file_contents classifies the file as binary by extension, so the
round trip does not return the written bytes for every path. -/
theorem C8_binary_extension_counterexample :
    (executeAction s1 w2 "write_file"
      [("path", Json.str "x.png"), ("content", Json.str "hi")]).action.success = true ∧
    (executeAction
      (executeAction s1 w2 "write_file"
        [("path", Json.str "x.png"), ("content", Json.str "hi")]).session
      (executeAction s1 w2 "write_file"
        [("path", Json.str "x.png"), ("content", Json.str "hi")]).world
      "read_file" [("path", Json.str "x.png")]).action.success = false ∧
    (executeAction
      (executeAction s1 w2 "write_file"
        [("path", Json.str "x.png"), ("content", Json.str "hi")]).session
      (executeAction s1 w2 "write_file"
        [("path", Json.str "x.png"), ("content", Json.str "hi")]).world
      "read_file" [("path", Json.str "x.png")]).action.errorMessage =
      some "Cannot read binary file as text: x.png" := by
  decide

/-- C8, amended: dispatching write_file and then read_file on the same
path returns exactly the written text whenever the write can succeed
(no ancestor of the path is a regular file and the path itself is not a
directory) and the written file is not classified binary by
is_binary_file (extension denylist, and NUL scan for small files). -/
theorem C8_write_read_roundtrip_amended (s : SessionState) (w : World)
    (path content : String)
    (ha : (ancestors path).any (fun a => isFile w.fs a) = false)
    (hd : isDir w.fs path = false)
    (hb : is_binary_file path content = false) :
    (executeAction s w "write_file"
      [("path", Json.str path), ("content", Json.str content)]).action.success = true ∧
    (executeAction
      (executeAction s w "write_file"
        [("path", Json.str path), ("content", Json.str content)]).session
      (executeAction s w "write_file"
        [("path", Json.str path), ("content", Json.str content)]).world
      "read_file" [("path", Json.str path)]).action.success = true ∧
    (executeAction
      (executeAction s w "write_file"
        [("path", Json.str path), ("content", Json.str content)]).session
      (executeAction s w "write_file"
        [("path", Json.str path), ("content", Json.str content)]).world
      "read_file" [("path", Json.str path)]).action.result = some (Json.str content) := by
  have hgp : getStr [("path", Json.str path), ("content", Json.str content)] "path" = some path := rfl
  have hgp2 : getStr [("path", Json.str path)] "path" = some path := rfl
  have hgc : getStr [("path", Json.str path), ("content", Json.str content)] "content" = some content := rfl
  have e1 : ∀ s' w', dispatchAction s' w' "write_file"
      [("path", Json.str path), ("content", Json.str content)] =
      execute_write_file s' w' [("path", Json.str path), ("content", Json.str content)] :=
    fun _ _ => rfl
  have e2 : ∀ s' w', dispatchAction s' w' "read_file" [("path", Json.str path)] =
      execute_read_file s' w' [("path", Json.str path)] := fun _ _ => rfl
  have hwc : write_file_contents w.fs path content =
      Except.ok (fsSet (mkDirs w.fs (ancestors path)) path (FsEntry.file content)) := by
    simp [write_file_contents, ha, hd]
  have d1 : dispatchAction s w "write_file"
      [("path", Json.str path), ("content", Json.str content)] =
      ⟨Except.ok (Json.str ("Successfully wrote to " ++ path)), s.currentDirectory,
        { w with fs := fsSet (mkDirs w.fs (ancestors path)) path (FsEntry.file content) }⟩ := by
    rw [e1]; simp [execute_write_file, hgp, hgc, hwc]
  have hw1 : (executeAction s w "write_file"
      [("path", Json.str path), ("content", Json.str content)]).world =
      { w with fs := fsSet (mkDirs w.fs (ancestors path)) path (FsEntry.file content) } := by
    simp [executeAction, d1]
  have hrd : read_file_contents
      (fsSet (mkDirs w.fs (ancestors path)) path (FsEntry.file content)) path =
      Except.ok content := by
    simp [read_file_contents, lookupFs_fsSet_self, hb]
  refine ⟨?_, ?_, ?_⟩
  · simp [executeAction, d1, finalizeAction]
  · rw [hw1]
    simp [executeAction, e2, execute_read_file, hgp2, hrd, finalizeAction]
  · rw [hw1]
    simp [executeAction, e2, execute_read_file, hgp2, hrd, finalizeAction]

/-- C8 witness: the amended theorem applied at a text file on the empty
filesystem. -/
theorem C8_write_read_roundtrip_witness :
    (executeAction
      (executeAction s1 w2 "write_file"
        [("path", Json.str "notes.txt"), ("content", Json.str "hello")]).session
      (executeAction s1 w2 "write_file"
        [("path", Json.str "notes.txt"), ("content", Json.str "hello")]).world
      "read_file" [("path", Json.str "notes.txt")]).action.result =
      some (Json.str "hello") := by
  have h := C8_write_read_roundtrip_amended s1 w2 "notes.txt" "hello"
    (by decide) (by decide) (by decide)
  exact h.2.2

/-- C9: the shell-command classifier marks the root-deletion command as
Dangerous via the case-insensitive destructive-substring denylist and
the plain listing command as Moderate. -/
theorem C9_command_classification :
    (check_permission_level "execute_command"
      [("command", Json.str "rm -rf /")]).level = PermissionLevel.Dangerous ∧
    (check_permission_level "execute_command"
      [("command", Json.str "ls")]).level = PermissionLevel.Moderate := by
  decide

/-- C10: when a session id is absent from the shared store, as it is
after calling only create_agent_session (which builds and returns a
session without receiving the store), execute_agent_action and
get_agent_session both fail with the session-not-found error, while
create_or_get_agent_session registers the fresh session under the id. -/
theorem C10_session_store (cwd id t : String) (st : SessionStore)
    (w : World) (p : Params) (h : storeLookup st id = none) :
    (create_agent_session cwd id).id = id ∧
    execute_agent_action st w id t p = .error "Agent session not found" ∧
    get_agent_session st id = .error "Agent session not found" ∧
    storeLookup (create_or_get_agent_session cwd st id).2 id =
      some (AgentSession.new cwd id) := by
  refine ⟨rfl, ?_, ?_, ?_⟩
  · simp [execute_agent_action, h]
  · simp [get_agent_session, h]
  · have hcg : (create_or_get_agent_session cwd st id).2 =
        storeSet st id (AgentSession.new cwd id) := by
      simp [create_or_get_agent_session, h]
    rw [hcg]
    simp [storeLookup, storeSet, List.find?]

/-- C10 witness: the theorem applied at the empty store. -/
theorem C10_session_store_witness :
    execute_agent_action [] w1 "s1" "list_directory" [] = .error "Agent session not found" ∧
    get_agent_session ([] : SessionStore) "s1" = .error "Agent session not found" ∧
    storeLookup (create_or_get_agent_session "/" [] "s1").2 "s1" =
      some (AgentSession.new "/" "s1") := by
  have h := C10_session_store "/" "s1" "list_directory" [] w1 [] (by rfl)
  exact ⟨h.2.1, h.2.2.1, h.2.2.2⟩

end ChatMe
